import Mathlib

/-!
Verification development for the Veilnova Fetch Node bot (src/bot/bot.py).

The Python source is shallowly embedded: Python strings are modelled as
`List Char` (one element per code point, matching Python's `str` which is a
sequence of code points, so `len`, slicing and indexing agree with
`List.length`, `List.take`/`List.drop`), Python `None`-able JSON-ish values as
an inductive `PyVal`, the two handler coroutines as pure step functions over an
explicit `BotState`, and I/O results of external tools as oracle parameters.
Wall-clock times (`time.time()` floats compared only with `<=`/`+`) are
modelled as integers, which preserves every comparison the code performs.
-/

set_option autoImplicit false
set_option maxRecDepth 4096

namespace VeilnovaBot

/-- Characters stripped by Python's default `str.strip` / `str.rstrip`
(ASCII fragment of `str.isspace`; every string the program manipulates at the
stripping call sites is ASCII-spaced). -/
def pyIsSpace (c : Char) : Bool :=
  c = ' ' || c = '\t' || c = '\n' || c = '\r' || c = '\x0b' || c = '\x0c'

/-- Python `str.lstrip()` (default whitespace). -/
def pyLstrip (l : List Char) : List Char := l.dropWhile pyIsSpace

/-- Python `str.rstrip()` (default whitespace): remove the maximal all-space
suffix. -/
def pyRstrip : List Char → List Char
  | [] => []
  | c :: cs =>
    let r := pyRstrip cs
    if r = [] ∧ pyIsSpace c then [] else c :: r

/-- Python `str.strip()` (default whitespace). -/
def pyStrip (l : List Char) : List Char := pyRstrip (pyLstrip l)

/-- Python `str.lower()` (ASCII fragment; the URLs and diagnostics the code
lowercases are treated per code point, `Char.toLower` maps `A`-`Z`). -/
def pyLower (l : List Char) : List Char := l.map Char.toLower

/-- Whether `pre` is a leading segment of `l`. -/
def leadsWith : List Char → List Char → Bool
  | [], _ => true
  | _ :: _, [] => false
  | p :: ps, c :: cs => p = c && leadsWith ps cs

/-- Python's substring test `needle in hay`. -/
def containsSub (needle : List Char) : List Char → Bool
  | [] => leadsWith needle []
  | c :: cs => leadsWith needle (c :: cs) || containsSub needle cs

/-- Python `a or b` on strings: `b` when `a` is empty (falsy), else `a`. -/
def pyOrStr (a b : List Char) : List Char := if a = [] then b else a

/-- Python slice `l[:i]` with a possibly negative bound `i`. -/
def pySliceTo (l : List Char) (i : Int) : List Char :=
  if 0 ≤ i then l.take i.toNat else l.take (l.length - (-i).toNat)

/-- Caption text derived from title/description before any truncation,
mirroring bot.py lines 139-141: `desc = (description or "").strip()`,
`ttl = (title or "").strip()`, `text = (desc or ttl).strip()`. -/
def caption_text (title description : List Char) : List Char :=
  pyStrip (pyOrStr (pyStrip description) (pyStrip title))

/-- Embedding of `build_caption` (bot.py lines 138-144). -/
def build_caption (title description : List Char) (max_len : Nat := 1024) :
    List Char :=
  let text := caption_text title description
  if max_len < text.length then
    pyRstrip (pySliceTo text ((max_len : Int) - 1)) ++ ['…']
  else text

theorem pyRstrip_eq_take (l : List Char) :
    ∃ j, j ≤ l.length ∧ pyRstrip l = l.take j := by
  induction l with
  | nil => exact ⟨0, Nat.le_refl 0, rfl⟩
  | cons c cs ih =>
    obtain ⟨j, hj, hr⟩ := ih
    by_cases h : pyRstrip cs = [] ∧ pyIsSpace c
    · refine ⟨0, Nat.zero_le _, ?_⟩
      simp [pyRstrip, h.1, h.2]
    · refine ⟨j + 1, Nat.succ_le_succ hj, ?_⟩
      simp only [pyRstrip, List.take_succ_cons]
      rw [if_neg h, hr]

theorem pyRstrip_nil : pyRstrip [] = [] := rfl

theorem pyRstrip_cons (c : Char) (l : List Char) :
    pyRstrip (c :: l) =
      if pyRstrip l = [] ∧ pyIsSpace c then [] else c :: pyRstrip l := rfl

theorem pyRstrip_concat_nonspace (l : List Char) (b : Char)
    (hb : pyIsSpace b = false) : pyRstrip (l ++ [b]) = l ++ [b] := by
  induction l with
  | nil => simp [pyRstrip_cons, pyRstrip_nil, hb]
  | cons c cs ih =>
    rw [List.cons_append, pyRstrip_cons, ih, if_neg (by simp)]

theorem pyRstrip_concat_space (l : List Char) (b : Char)
    (hb : pyIsSpace b = true) : pyRstrip (l ++ [b]) = pyRstrip l := by
  induction l with
  | nil => simp [pyRstrip_cons, pyRstrip_nil, hb]
  | cons c cs ih => rw [List.cons_append, pyRstrip_cons, ih, pyRstrip_cons]

theorem pyRstrip_replicate_nonspace (n : Nat) (c : Char)
    (hc : pyIsSpace c = false) :
    pyRstrip (List.replicate n c) = List.replicate n c := by
  induction n with
  | zero => rfl
  | succ m ih => rw [List.replicate_succ', pyRstrip_concat_nonspace _ c hc]

/-- Example description of length 1025 whose character at the truncation cut
is a space: `1022` letters, a space, then two letters. -/
def exLongDesc : List Char := List.replicate 1022 'a' ++ [' ', 'b', 'b']

theorem pyStrip_exLongDesc : pyStrip exLongDesc = exLongDesc := by
  have h1 : pyLstrip exLongDesc = exLongDesc := by
    rw [exLongDesc, show (1022 : Nat) = 1021 + 1 from rfl, List.replicate_succ]
    simp [pyLstrip, List.dropWhile_cons, pyIsSpace]
  have h2 : pyRstrip exLongDesc = exLongDesc := by
    rw [exLongDesc, show ([' ', 'b', 'b'] : List Char) = [' ', 'b'] ++ ['b']
      from rfl, ← List.append_assoc]
    exact pyRstrip_concat_nonspace _ 'b' (by decide)
  rw [pyStrip, h1, h2]

theorem caption_text_exLongDesc : caption_text [] exLongDesc = exLongDesc := by
  rw [caption_text, pyStrip_exLongDesc, pyOrStr,
    if_neg (by simp [exLongDesc]), pyStrip_exLongDesc]

theorem exLongDesc_length : exLongDesc.length = 1025 := by
  simp [exLongDesc]

/-- Claim C7, counterexample: the claim asserts that a caption derived from
text longer than the configured maximum is truncated to exactly that maximum
length.  For this input the derived text has 1025 > 1024 characters, yet the
built caption has 1023 characters, because the whitespace sitting just before
the cut is stripped before the one-character ellipsis is appended
(bot.py line 143: `text[: max_len - 1].rstrip() + "…"`). -/
theorem build_caption_max_length_counterexample :
    (caption_text [] exLongDesc).length = 1025 ∧
    1024 < (caption_text [] exLongDesc).length ∧
    (build_caption [] exLongDesc).length = 1023 ∧
    (build_caption [] exLongDesc).length ≠ 1024 := by
  have hc := caption_text_exLongDesc
  have hlen : (caption_text [] exLongDesc).length = 1025 := by
    rw [hc, exLongDesc_length]
  have hslice : pySliceTo exLongDesc (((1024 : Nat) : Int) - 1) =
      List.replicate 1022 'a' ++ [' '] := by
    rw [pySliceTo, if_pos (by norm_num)]
    have ht : ((((1024 : Nat) : Int)) - 1).toNat = 1023 := by decide
    rw [ht, exLongDesc, List.take_append_eq_append_take]
    simp
  have hbuild : build_caption [] exLongDesc =
      List.replicate 1022 'a' ++ ['…'] := by
    simp only [build_caption]
    rw [hc, if_pos (by simp [exLongDesc]), hslice,
      pyRstrip_concat_space _ ' ' (by decide),
      pyRstrip_replicate_nonspace 1022 'a' (by decide)]
  have hblen : (build_caption [] exLongDesc).length = 1023 := by
    rw [hbuild]; simp
  exact ⟨hlen, by omega, hblen, by omega⟩

/-- Claim C7, amended: for a positive configured maximum `m`, caption text of
length at most `m` is returned unchanged; longer caption text is truncated to
at most `m` characters (exactly `m` only when no whitespace sits at the cut),
the result ends with the one-character ellipsis marker counted inside the
bound, and the part before the marker is a character-aligned leading segment
of the derived text, so no character is ever split. -/
theorem build_caption_truncation_behavior (title description : List Char)
    (m : Nat) (hm : 1 ≤ m) :
    ((caption_text title description).length ≤ m →
        build_caption title description m = caption_text title description) ∧
    (m < (caption_text title description).length →
        (build_caption title description m).length ≤ m ∧
        ∃ k, build_caption title description m =
          (caption_text title description).take k ++ ['…']) := by
  constructor
  · intro hle
    rw [build_caption, if_neg (by omega)]
  · intro hgt
    have hslice : pySliceTo (caption_text title description) ((m : Int) - 1) =
        (caption_text title description).take (m - 1) := by
      rw [pySliceTo, if_pos (by omega)]
      congr 1
      omega
    obtain ⟨j, hj, hr⟩ :=
      pyRstrip_eq_take ((caption_text title description).take (m - 1))
    rw [build_caption, if_pos hgt, hslice, hr, List.take_take]
    constructor
    · have hlen : ((caption_text title description).take
          (min j (m - 1))).length ≤ m - 1 := by
        simp only [List.length_take]
        omega
      simp only [List.length_append, List.length_singleton]
      omega
    · exact ⟨min j (m - 1), rfl⟩

/-- Witness for `build_caption_truncation_behavior` at concrete inputs: a short
caption is returned unchanged, and a caption longer than the maximum `3` is
truncated to at most `3` characters. -/
theorem build_caption_truncation_behavior_witness :
    build_caption [] "hello".data 1024 = "hello".data ∧
    (build_caption [] "abcde".data 3).length ≤ 3 := by
  have h1 := build_caption_truncation_behavior [] "hello".data 1024 (by decide)
  have h2 := build_caption_truncation_behavior [] "abcde".data 3 (by decide)
  exact ⟨h1.1 (by decide), (h2.2 (by decide)).1⟩

/-! URL classification (bot.py lines 147-190). -/

/-- Embedding of `is_instagram` (bot.py lines 147-149). -/
def is_instagram (url : List Char) : Bool :=
  containsSub ("instagram.com").data (pyLower url) ||
  containsSub ("instagr.am").data (pyLower url)

/-- Embedding of `is_instagram_post` (bot.py lines 152-154). -/
def is_instagram_post (url : List Char) : Bool :=
  containsSub ("instagram.com/p/").data (pyLower url)

/-- Embedding of `is_pinterest` (bot.py lines 157-159). -/
def is_pinterest (url : List Char) : Bool :=
  containsSub ("pinterest.").data (pyLower url) ||
  containsSub ("pin.it").data (pyLower url)

/-- Embedding of `is_tiktok` (bot.py lines 162-164). -/
def is_tiktok (url : List Char) : Bool :=
  containsSub ("tiktok.com").data (pyLower url) ||
  containsSub ("vt.tiktok.com").data (pyLower url)

/-- Embedding of `is_youtube` (bot.py lines 167-169). -/
def is_youtube (url : List Char) : Bool :=
  containsSub ("youtube.com").data (pyLower url) ||
  containsSub ("youtu.be").data (pyLower url)

/-- Embedding of `supports_quality_menu` (bot.py lines 172-190). -/
def supports_quality_menu (url : List Char) : Bool :=
  if is_instagram url || is_tiktok url || is_pinterest url then false
  else
    [("youtube.com").data, ("youtu.be").data, ("vk.com").data,
     ("vkvideo.ru").data, ("rutube.ru").data, ("vimeo.com").data,
     ("dailymotion.com").data, ("twitch.tv").data].any
      (fun h => containsSub h (pyLower url))

/-! Python/JSON values, as produced by parsing the probe's JSON document. -/

/-- Model of the Python values the code inspects: `None`, ints, strings,
lists and string-keyed dicts (the JSON document returned by the metadata
probe). -/
inductive PyVal where
  | none
  | int (n : Int)
  | str (s : List Char)
  | list (xs : List PyVal)
  | dict (kvs : List (List Char × PyVal))

/-- First value bound to key `k` in an association list (Python dicts have
unique keys, so first-match lookup coincides with dict lookup). -/
def lookupKey (k : List Char) : List (List Char × PyVal) → PyVal
  | [] => .none
  | (k', v) :: rest => if k' = k then v else lookupKey k rest

/-- Python `d.get(k)`: the bound value, or `None` when the key is absent
(also `None` on non-dicts, where the original code would not be called). -/
def PyVal.get (v : PyVal) (k : List Char) : PyVal :=
  match v with
  | .dict kvs => lookupKey k kvs
  | _ => .none

/-- Python `isinstance(v, dict)`. -/
def PyVal.isDict : PyVal → Bool
  | .dict _ => true
  | _ => false

/-- Python truthiness of a value: `None`, `0`, empty strings and empty
containers are falsy. -/
def PyVal.truthy : PyVal → Bool
  | .none => false
  | .int n => decide (n ≠ 0)
  | .str s => decide (s ≠ [])
  | .list xs => !xs.isEmpty
  | .dict kvs => !kvs.isEmpty

/-! Precheck / Planner (bot.py lines 380-385 and 417-472). -/

/-- Embedding of the `DownloadPlan` dataclass (bot.py lines 380-385).  The
`info` field is populated only when a metadata probe was performed. -/
structure DownloadPlan where
  mode : List Char
  title : List Char := []
  description : List Char := []
  info : Option PyVal := Option.none

/-- Outcome of the early routing section of `precheck_plan`
(bot.py lines 420-439): either a plan is returned directly with no network
probe, or control reaches the `yt-dlp --dump-single-json --skip-download`
metadata probe (bot.py lines 441-472). -/
inductive PrecheckDecision where
  | plan (p : DownloadPlan)
  | probe

/-- Whether the routing decision reaches the network probe. -/
def PrecheckDecision.isProbe : PrecheckDecision → Bool
  | .probe => true
  | .plan _ => false

/-- Embedding of the platform routing at the head of `precheck_plan`
(bot.py lines 417-439): Instagram `/p/` posts, Pinterest and TikTok URLs are
answered without any `yt-dlp` invocation; every other URL proceeds to the
metadata-only probe. -/
def precheck_plan_route (url : List Char) : PrecheckDecision :=
  if is_instagram_post url then .plan { mode := ("photo").data }
  else if is_pinterest url then .plan { mode := ("gallery").data }
  else if is_tiktok url then .plan { mode := ("video").data }
  else .probe

/-- Claim C5: URLs classified (with the classifier's fixed precedence:
instagram-post, then pinterest, then tiktok) as Instagram single post,
Pinterest or TikTok make the Planner return a plan without performing any
network probe — mode `photo`, `gallery` and `video` respectively, each with
empty title/description and no probe metadata — while every other URL reaches
the metadata-only probe. -/
theorem precheck_plan_platform_routing (url : List Char) :
    (is_instagram_post url = true →
        precheck_plan_route url = .plan { mode := ("photo").data }) ∧
    (is_instagram_post url = false → is_pinterest url = true →
        precheck_plan_route url = .plan { mode := ("gallery").data }) ∧
    (is_instagram_post url = false → is_pinterest url = false →
        is_tiktok url = true →
        precheck_plan_route url = .plan { mode := ("video").data }) ∧
    ((is_instagram_post url || is_pinterest url || is_tiktok url) = false →
        precheck_plan_route url = .probe) := by
  refine ⟨fun h1 => ?_, fun h1 h2 => ?_, fun h1 h2 h3 => ?_, fun h => ?_⟩
  · simp [precheck_plan_route, h1]
  · simp [precheck_plan_route, h1, h2]
  · simp [precheck_plan_route, h1, h2, h3]
  · have h1 : is_instagram_post url = false := by
      cases hx : is_instagram_post url <;> simp_all
    have h2 : is_pinterest url = false := by
      cases hx : is_pinterest url <;> simp_all
    have h3 : is_tiktok url = false := by
      cases hx : is_tiktok url <;> simp_all
    simp [precheck_plan_route, h1, h2, h3]

/-- Witness for `precheck_plan_platform_routing` at four concrete URLs, one
per routing branch. -/
theorem precheck_plan_platform_routing_witness :
    precheck_plan_route ("https://www.instagram.com/p/abc123/").data =
      .plan { mode := ("photo").data } ∧
    precheck_plan_route ("https://pin.it/xyz").data =
      .plan { mode := ("gallery").data } ∧
    precheck_plan_route ("https://vt.tiktok.com/Z123/").data =
      .plan { mode := ("video").data } ∧
    precheck_plan_route ("https://youtube.com/watch?v=1").data = .probe := by
  refine ⟨?_, ?_, ?_, ?_⟩
  · exact (precheck_plan_platform_routing _).1 (by decide)
  · exact (precheck_plan_platform_routing _).2.1 (by decide) (by decide)
  · exact (precheck_plan_platform_routing _).2.2.1 (by decide) (by decide)
      (by decide)
  · exact (precheck_plan_platform_routing _).2.2.2 (by decide)

/-! Quality negotiation: available heights and the menu
(bot.py lines 316-339). -/

/-- Test from bot.py line 325, `vcodec in (None, "none")`, negated: the
format is kept only when its `vcodec` entry is neither `None` nor the string
`"none"` (i.e. the format carries a video codec; audio-only formats do not). -/
def vcodec_ok : PyVal → Bool
  | .none => false
  | .str s => decide (s ≠ ("none").data)
  | _ => true

/-- Height contributed by one entry of the `formats` list, mirroring the loop
body of `extract_available_heights` (bot.py lines 320-328): non-dict entries
are skipped, entries whose `vcodec` is `None`/`"none"` are skipped, and the
`height` value counts only when it is a positive int. -/
def format_height (f : PyVal) : Option Int :=
  match f with
  | .dict _ =>
    if vcodec_ok (f.get ("vcodec").data) then
      match f.get ("height").data with
      | .int h => if 0 < h then some h else Option.none
      | _ => Option.none
    else Option.none
  | _ => Option.none

/-- All heights collected by the loop of `extract_available_heights`
(bot.py lines 317-328), before set-deduplication and sorting. -/
def collectHeights (info : PyVal) : List Int :=
  match info.get ("formats").data with
  | .list fs => fs.filterMap format_height
  | _ => []

/-- Embedding of `extract_available_heights` (bot.py lines 316-329): the
distinct collected heights sorted in descending order (`sorted(heights,
reverse=True)` on the set of collected heights). -/
def extract_available_heights (info : PyVal) : List Int :=
  List.insertionSort (fun a b => b ≤ a) (collectHeights info).dedup

/-- Embedding of `pick_menu_heights` (bot.py lines 332-335): the fixed
preference list filtered by availability, in the preference list's order. -/
def pick_menu_heights (available : List Int) : List Int :=
  List.filter (fun h => decide (h ∈ available)) [1080, 720, 480, 360]

theorem mem_extract_available_heights (info : PyVal) (h : Int) :
    h ∈ extract_available_heights info ↔ h ∈ collectHeights info := by
  rw [extract_available_heights]
  rw [(List.perm_insertionSort (fun a b => b ≤ a)
    (collectHeights info).dedup).mem_iff]
  exact List.mem_dedup

theorem format_height_eq_some (f : PyVal) (h : Int) :
    format_height f = some h ↔
      f.isDict = true ∧ vcodec_ok (f.get ("vcodec").data) = true ∧
      f.get ("height").data = PyVal.int h ∧ 0 < h := by
  cases f with
  | none => simp [format_height, PyVal.isDict]
  | int n => simp [format_height, PyVal.isDict]
  | str s => simp [format_height, PyVal.isDict]
  | list xs => simp [format_height, PyVal.isDict]
  | dict kvs =>
    simp only [format_height, PyVal.isDict, true_and]
    by_cases hv : vcodec_ok ((PyVal.dict kvs).get ("vcodec").data) = true
    · rw [if_pos hv]
      simp only [hv, true_and]
      cases hh : (PyVal.dict kvs).get ("height").data with
      | none => simp
      | str s => simp
      | list xs => simp
      | dict kvs2 => simp
      | int n =>
        show (if 0 < n then some n else Option.none) = some h ↔
          PyVal.int n = PyVal.int h ∧ 0 < h
        by_cases hn : 0 < n
        · rw [if_pos hn]
          constructor
          · rintro ⟨⟩; exact ⟨rfl, hn⟩
          · rintro ⟨he, _⟩; cases he; rfl
        · rw [if_neg hn]
          constructor
          · rintro ⟨⟩
          · rintro ⟨he, hp⟩; cases he; exact absurd hp hn
    · rw [if_neg hv]
      constructor
      · rintro ⟨⟩
      · rintro ⟨hv2, _⟩; exact absurd hv2 hv

/-- Probe metadata document from the claim's example: four video formats with
heights 1080, 720, 480 and 240. -/
def exampleProbeFmt (h : Int) : PyVal :=
  .dict [(("height").data, .int h), (("vcodec").data, .str ("avc1").data)]

/-- Probe metadata document with format heights 1080, 720, 480, 240. -/
def exampleProbeInfo : PyVal :=
  .dict [(("formats").data,
    .list [exampleProbeFmt 1080, exampleProbeFmt 720, exampleProbeFmt 480,
           exampleProbeFmt 240])]

/-- Claim C6: the menu's selectable heights are exactly the members of the
fixed preference list `[1080, 720, 480, 360]` for which the probe document
has a dict format entry carrying a video codec (`vcodec` neither `None` nor
`"none"`) and that positive int height; the result preserves the preference
list's order (it is a sublist of it); and the document with format heights
`{1080, 720, 480, 240}` yields exactly `[1080, 720, 480]`. -/
theorem quality_menu_heights_spec :
    (∀ (info : PyVal) (h : Int),
        h ∈ pick_menu_heights (extract_available_heights info) ↔
          h ∈ ([1080, 720, 480, 360] : List Int) ∧
          ∃ fs f, info.get ("formats").data = PyVal.list fs ∧ f ∈ fs ∧
            f.isDict = true ∧ vcodec_ok (f.get ("vcodec").data) = true ∧
            f.get ("height").data = PyVal.int h ∧ 0 < h) ∧
    (∀ info : PyVal,
        (pick_menu_heights (extract_available_heights info)).Sublist
          [1080, 720, 480, 360]) ∧
    pick_menu_heights (extract_available_heights exampleProbeInfo) =
      [1080, 720, 480] := by
  refine ⟨fun info h => ?_, fun info => List.filter_sublist _, by decide⟩
  rw [pick_menu_heights, List.mem_filter, decide_eq_true_eq,
    mem_extract_available_heights, and_comm (b := h ∈ collectHeights info)]
  constructor
  · rintro ⟨hc, hw⟩
    refine ⟨hw, ?_⟩
    cases hg : info.get ("formats").data with
    | none => simp [collectHeights, hg] at hc
    | int n => simp [collectHeights, hg] at hc
    | str s => simp [collectHeights, hg] at hc
    | dict kvs => simp [collectHeights, hg] at hc
    | list fs =>
      simp only [collectHeights, hg] at hc
      obtain ⟨f, hf, hfh⟩ := List.mem_filterMap.mp hc
      obtain ⟨hd, hv, hh, hp⟩ := (format_height_eq_some f h).mp hfh
      exact ⟨fs, f, rfl, hf, hd, hv, hh, hp⟩
  · rintro ⟨hw, fs, f, hg, hf, hd, hv, hh, hp⟩
    refine ⟨?_, hw⟩
    simp only [collectHeights, hg]
    exact List.mem_filterMap.mpr
      ⟨f, hf, (format_height_eq_some f h).mpr ⟨hd, hv, hh, hp⟩⟩

/-! Argument builder for the primary tool (bot.py lines 258-313, 338-339 and
573-594). -/

/-- Configuration values read from the environment at startup
(bot.py lines 859-863); they parameterize the argument builder. -/
structure Cfg where
  YTDLP_IMPERSONATE : List Char
  YTDLP_FORCE_IPV4 : Bool
  YTDLP_YOUTUBE_PLAYER_CLIENT : List Char
  YTDLP_REMOTE_COMPONENTS : List Char

/-- Desktop user-agent string used verbatim in both the TikTok and the
Instagram branches of `yt_dlp_common_args` (bot.py lines 286-288, 305-308). -/
def ua_desktop : List Char :=
  ("Mozilla/5.0 (Windows NT 10.0; Win64; x64) AppleWebKit/537.36 (KHTML, like Gecko) Chrome/120 Safari/537.36").data

/-- Embedding of `yt_dlp_common_args` (bot.py lines 258-313). -/
def yt_dlp_common_args (cfg : Cfg) (url : List Char)
    (cookies_path : Option (List Char)) : List (List Char) :=
  (if is_instagram_post url then [] else ["--no-playlist".data]) ++
  ["--restrict-filenames".data, "--no-progress".data] ++
  (if is_youtube url then
      ["--remote-components".data, cfg.YTDLP_REMOTE_COMPONENTS,
       "--extractor-args".data,
       ("youtube:player_client=").data ++ cfg.YTDLP_YOUTUBE_PLAYER_CLIENT]
    else []) ++
  (if is_tiktok url then
      ["--impersonate".data, cfg.YTDLP_IMPERSONATE,
       "--add-header".data, ("Referer:https://www.tiktok.com/").data,
       "--add-header".data, ("Accept-Language:en-US,en;q=0.9").data,
       "--user-agent".data, ua_desktop] ++
      (if cfg.YTDLP_FORCE_IPV4 then ["-4".data] else [])
    else []) ++
  (match cookies_path with
   | some c => ["--cookies".data, c]
   | Option.none => []) ++
  (if is_instagram url then
      ["--sleep-requests".data, "2".data, "--sleep-interval".data, "2".data,
       "--max-sleep-interval".data, "4".data, "--user-agent".data, ua_desktop]
    else []) ++
  (if is_instagram_post url then
      ["--ignore-no-formats-error".data, "--no-abort-on-error".data]
    else [])

/-- Embedding of `fmt_selector_for_height` (bot.py lines 338-339). -/
def fmt_selector_for_height (height : Nat) : List Char :=
  ("bv*[height<=").data ++ (toString height).data ++ ("]+ba/b[height<=").data
    ++ (toString height).data ++ ("]/best[height<=").data
    ++ (toString height).data ++ ("]").data

/-- Python `str.isdigit()` (ASCII digits; the callback choices are ASCII). -/
def pyIsdigit (l : List Char) : Bool := !l.isEmpty && l.all Char.isDigit

/-- Python `int(...)` on a string of ASCII digits. -/
def digitsToNat (l : List Char) : Nat :=
  l.foldl (fun n c => 10 * n + (c.toNat - 48)) 0

/-- Format filter chosen by the video branch of `run_yt_dlp_download`
(bot.py lines 574-581): `"best"` maps to no filter, `"<digits>p"` maps to the
three-tier selector for that height, anything else to no filter. -/
def video_fmt (quality_choice : List Char) : Option (List Char) :=
  if quality_choice = ("best").data then Option.none
  else if quality_choice.getLast? = some 'p' ∧ pyIsdigit quality_choice.dropLast
  then some (fmt_selector_for_height (digitsToNat quality_choice.dropLast))
  else Option.none

/-- Argument list built by the video branch of `run_yt_dlp_download`
(bot.py lines 583-594); `outtmpl` is the output template derived from the
fresh job id (line 521). -/
def run_yt_dlp_video_args (cfg : Cfg) (url : List Char)
    (cookies_path : Option (List Char)) (max_file_mb : Nat)
    (outtmpl : List Char) (quality_choice : List Char) : List (List Char) :=
  ["yt-dlp".data] ++ yt_dlp_common_args cfg url cookies_path ++
  (match video_fmt quality_choice with
   | some f => ["-f".data, f]
   | Option.none => []) ++
  ["--max-filesize".data, (toString max_file_mb).data ++ ['M'],
   "--merge-output-format".data, "mp4".data, "-o".data, outtmpl, url]

theorem mem_ite_elim {α : Type} {x : α} {c : Prop} [Decidable c]
    {A B : List α} (h : x ∈ if c then A else B) : x ∈ A ∨ x ∈ B := by
  split at h
  · exact Or.inl h
  · exact Or.inr h

theorem no_fmt_flag_in_common_args (cfg : Cfg) (url : List Char)
    (ck : Option (List Char))
    (h1 : cfg.YTDLP_REMOTE_COMPONENTS ≠ ("-f").data)
    (h2 : cfg.YTDLP_IMPERSONATE ≠ ("-f").data)
    (h3 : ∀ c, ck = some c → c ≠ ("-f").data) :
    ("-f").data ∉ yt_dlp_common_args cfg url ck := by
  have e1 : (("-f").data).length = 2 := by decide
  have e2 : (("youtube:player_client=").data).length = 22 := by decide
  have hs1 : ("-f").data ∉
      (if is_instagram_post url then ([] : List (List Char))
       else ["--no-playlist".data]) := by
    split
    · exact List.not_mem_nil _
    · decide
  have hs2 : ("-f").data ∉
      ["--restrict-filenames".data, "--no-progress".data] := by decide
  have hs3 : ("-f").data ∉
      (if is_youtube url then
        ["--remote-components".data, cfg.YTDLP_REMOTE_COMPONENTS,
         "--extractor-args".data,
         ("youtube:player_client=").data ++ cfg.YTDLP_YOUTUBE_PLAYER_CLIENT]
       else []) := by
    split
    · intro hm
      simp only [List.mem_cons, List.not_mem_nil, or_false] at hm
      rcases hm with hm | hm | hm | hm
      · exact absurd hm (by decide)
      · exact h1 hm.symm
      · exact absurd hm (by decide)
      · have hl := congrArg List.length hm
        rw [List.length_append, e1, e2] at hl
        omega
    · exact List.not_mem_nil _
  have hs4 : ("-f").data ∉
      (if is_tiktok url then
        ["--impersonate".data, cfg.YTDLP_IMPERSONATE,
         "--add-header".data, ("Referer:https://www.tiktok.com/").data,
         "--add-header".data, ("Accept-Language:en-US,en;q=0.9").data,
         "--user-agent".data, ua_desktop] ++
        (if cfg.YTDLP_FORCE_IPV4 then ["-4".data] else [])
       else []) := by
    split
    · intro hm
      rcases List.mem_append.mp hm with hm | hm
      · simp only [List.mem_cons, List.not_mem_nil, or_false] at hm
        rcases hm with hm | hm | hm | hm | hm | hm | hm | hm
        · exact absurd hm (by decide)
        · exact h2 hm.symm
        all_goals exact absurd hm (by decide)
      · rcases mem_ite_elim hm with hm2 | hm2
        · exact absurd hm2 (by decide)
        · exact List.not_mem_nil _ hm2
    · exact List.not_mem_nil _
  have hs5 : ("-f").data ∉
      (match ck with
       | some c => ["--cookies".data, c]
       | Option.none => ([] : List (List Char))) := by
    cases ck with
    | none => exact List.not_mem_nil _
    | some c =>
      intro hm
      simp only [List.mem_cons, List.not_mem_nil, or_false] at hm
      rcases hm with hm | hm
      · exact absurd hm (by decide)
      · exact h3 c rfl hm.symm
  have hs6 : ("-f").data ∉
      (if is_instagram url then
        ["--sleep-requests".data, "2".data, "--sleep-interval".data,
         "2".data, "--max-sleep-interval".data, "4".data,
         "--user-agent".data, ua_desktop]
       else []) := by
    split
    · decide
    · exact List.not_mem_nil _
  have hs7 : ("-f").data ∉
      (if is_instagram_post url then
        ["--ignore-no-formats-error".data, "--no-abort-on-error".data]
       else []) := by
    split
    · decide
    · exact List.not_mem_nil _
  intro hmem
  simp only [yt_dlp_common_args, List.mem_append] at hmem
  rcases hmem with ((((((hm | hm) | hm) | hm) | hm) | hm) | hm)
  · exact hs1 hm
  · exact hs2 hm
  · exact hs3 hm
  · exact hs4 hm
  · exact hs5 hm
  · exact hs6 hm
  · exact hs7 hm

/-- Claim C8: with quality choice `"best"` the video-mode invocation contains
no `-f` argument anywhere (provided none of the caller-supplied strings is
itself the literal `-f`); an explicit `"<digits>p"` height choice yields
exactly one `-f` followed by the three-tier height selector; and the selector
for height 720 is the three-tier fallback expression. -/
theorem video_format_filter_construction :
    (∀ (cfg : Cfg) (url : List Char) (ck : Option (List Char)) (m : Nat)
        (t : List Char),
        cfg.YTDLP_REMOTE_COMPONENTS ≠ ("-f").data →
        cfg.YTDLP_IMPERSONATE ≠ ("-f").data →
        (∀ c, ck = some c → c ≠ ("-f").data) →
        t ≠ ("-f").data → url ≠ ("-f").data →
        ("-f").data ∉ run_yt_dlp_video_args cfg url ck m t (("best").data)) ∧
    (∀ (cfg : Cfg) (url : List Char) (ck : Option (List Char)) (m : Nat)
        (t : List Char) (qc : List Char),
        qc ≠ ("best").data → qc.getLast? = some 'p' →
        pyIsdigit qc.dropLast = true →
        run_yt_dlp_video_args cfg url ck m t qc =
          ["yt-dlp".data] ++ yt_dlp_common_args cfg url ck ++
          ["-f".data, fmt_selector_for_height (digitsToNat qc.dropLast)] ++
          ["--max-filesize".data, (toString m).data ++ ['M'],
           "--merge-output-format".data, "mp4".data, "-o".data, t, url]) ∧
    fmt_selector_for_height 720 =
      ("bv*[height<=720]+ba/b[height<=720]/best[height<=720]").data := by
  refine ⟨?_, ?_, by decide⟩
  · intro cfg url ck m t h1 h2 h3 h4 h5 hmem
    have hbest : video_fmt (("best").data) = Option.none := rfl
    simp only [run_yt_dlp_video_args, hbest, List.mem_append, List.mem_cons,
      List.not_mem_nil, or_false, false_or, List.nil_append] at hmem
    rcases hmem with (hm | hm) | hm | hm | hm | hm | hm | hm | hm
    · exact absurd hm (by decide)
    · exact no_fmt_flag_in_common_args cfg url ck h1 h2 h3 hm
    · exact absurd hm (by decide)
    · have hl := congrArg List.getLast? hm
      rw [List.getLast?_concat] at hl
      have e1 : (("-f").data).getLast? = some 'f' := by decide
      rw [e1] at hl
      exact absurd hl (by decide)
    · exact absurd hm (by decide)
    · exact absurd hm (by decide)
    · exact absurd hm (by decide)
    · exact h4 hm.symm
    · exact h5 hm.symm
  · intro cfg url ck m t qc hqc hp hd
    have hfmt : video_fmt qc =
        some (fmt_selector_for_height (digitsToNat qc.dropLast)) := by
      rw [video_fmt, if_neg hqc, if_pos ⟨hp, hd⟩]
    simp only [run_yt_dlp_video_args, hfmt]

/-- Example configuration holding the environment defaults
(bot.py lines 859-863). -/
def exCfg : Cfg :=
  { YTDLP_IMPERSONATE := ("chrome").data
    YTDLP_FORCE_IPV4 := true
    YTDLP_YOUTUBE_PLAYER_CLIENT := ("web_embedded,web,tv").data
    YTDLP_REMOTE_COMPONENTS := ("ejs:github").data }

/-- Witness for `video_format_filter_construction` at the default
configuration, a YouTube URL, choices `best` and `720p`. -/
theorem video_format_filter_construction_witness :
    ("-f").data ∉ run_yt_dlp_video_args exCfg
      ("https://youtube.com/watch?v=1").data Option.none 1900
      ("/data/j.%(autonumber)03d.%(title).200s.%(ext)s").data ("best").data ∧
    run_yt_dlp_video_args exCfg ("https://youtube.com/watch?v=1").data
        Option.none 1900
        ("/data/j.%(autonumber)03d.%(title).200s.%(ext)s").data
        ("720p").data =
      ["yt-dlp".data] ++ yt_dlp_common_args exCfg
          ("https://youtube.com/watch?v=1").data Option.none ++
      ["-f".data,
       fmt_selector_for_height (digitsToNat (("720p").data).dropLast)] ++
      ["--max-filesize".data, (toString 1900).data ++ ['M'],
       "--merge-output-format".data, "mp4".data, "-o".data,
       ("/data/j.%(autonumber)03d.%(title).200s.%(ext)s").data,
       ("https://youtube.com/watch?v=1").data] := by
  constructor
  · exact video_format_filter_construction.1 exCfg _ Option.none 1900 _
      (by decide) (by decide) (fun c hc => nomatch hc) (by decide) (by decide)
  · exact video_format_filter_construction.2.1 exCfg _ Option.none 1900 _ _
      (by decide) (by decide) (by decide)

/-! Download executor: non-zero exit handling of the primary tool
(bot.py lines 608-629). -/

/-- Diagnostic signature checked by the fallback rule (bot.py line 618). -/
def no_formats_sig : List Char := ("No video formats found").data

/-- Combined diagnostic text on failure, bot.py line 610:
`msg = (err or out).strip()`. -/
def ytdlp_fail_msg (out err : List Char) : List Char := pyStrip (pyOrStr err out)

/-- Truncation of the diagnostic to its last 1200 characters, bot.py
lines 627-628: `if len(msg) > 1200: msg = msg[-1200:]`. -/
def truncTail (msg : List Char) : List Char :=
  if 1200 < msg.length then msg.drop (msg.length - 1200) else msg

/-- What the non-zero-exit handler of `run_yt_dlp_download` does: retry via
the gallery-mode path, or raise carrying a (possibly truncated) diagnostic. -/
inductive YtdlpFailAction where
  | fallbackGallery
  | raiseErr (tail : List Char)

/-- Embedding of the `if rc != 0:` block of `run_yt_dlp_download`
(bot.py lines 609-629): fall back to `run_gallery_dl_download` exactly when
the diagnostic contains the no-formats signature and the URL is an Instagram
single post or a Pinterest URL; otherwise raise with the truncated tail. -/
def run_yt_dlp_nonzero_exit (url out err : List Char) : YtdlpFailAction :=
  let msg := ytdlp_fail_msg out err
  if containsSub no_formats_sig msg &&
      (is_instagram_post url || is_pinterest url)
  then .fallbackGallery
  else .raiseErr (truncTail msg)

/-- Result of `run_yt_dlp_download` as a function of the primary tool's exit
code: on zero exit the primary tool's collected files, on non-zero exit
either the gallery fallback's own outcome (its files, or its error) or the
raised diagnostic.  `gallery` is the outcome `run_gallery_dl_download`
would produce for this URL (bot.py line 625), `ytFiles` the files collected
from the output template on success (bot.py lines 631-640). -/
def run_yt_dlp_download_result (rc : Int) (url out err : List Char)
    (gallery : Except (List Char) (List (List Char)))
    (ytFiles : List (List Char)) : Except (List Char) (List (List Char)) :=
  if rc ≠ 0 then
    match run_yt_dlp_nonzero_exit url out err with
    | .fallbackGallery => gallery
    | .raiseErr tail => .error tail
  else .ok ytFiles

/-- Claim C4: when the primary tool exits non-zero, if the stripped
diagnostic contains the `No video formats found` signature and the URL is an
Instagram single post or a Pinterest URL, the executor returns the
gallery-mode path's files instead of raising; any other non-zero exit raises
an error carrying the diagnostic's tail — the suffix obtained by dropping
all but the last 1200 characters (the whole diagnostic when it is short). -/
theorem yt_dlp_nonzero_exit_fallback_or_truncated_error (rc : Int)
    (url out err : List Char)
    (gallery : Except (List Char) (List (List Char)))
    (ytFiles : List (List Char)) (hrc : rc ≠ 0) :
    (containsSub no_formats_sig (ytdlp_fail_msg out err) = true →
      (is_instagram_post url = true ∨ is_pinterest url = true) →
      run_yt_dlp_download_result rc url out err gallery ytFiles = gallery) ∧
    ((containsSub no_formats_sig (ytdlp_fail_msg out err) = false ∨
        (is_instagram_post url = false ∧ is_pinterest url = false)) →
      run_yt_dlp_download_result rc url out err gallery ytFiles =
        .error (truncTail (ytdlp_fail_msg out err)) ∧
      truncTail (ytdlp_fail_msg out err) =
        (ytdlp_fail_msg out err).drop
          ((ytdlp_fail_msg out err).length - 1200) ∧
      (truncTail (ytdlp_fail_msg out err)).length =
        min (ytdlp_fail_msg out err).length 1200) := by
  constructor
  · intro hsig hplat
    have hcond : (containsSub no_formats_sig (ytdlp_fail_msg out err) &&
        (is_instagram_post url || is_pinterest url)) = true := by
      rcases hplat with h | h <;> simp [hsig, h]
    rw [run_yt_dlp_download_result, if_pos hrc, run_yt_dlp_nonzero_exit]
    simp only [hcond, if_true]
  · intro hneg
    have hcond : (containsSub no_formats_sig (ytdlp_fail_msg out err) &&
        (is_instagram_post url || is_pinterest url)) = false := by
      rcases hneg with h | ⟨h1, h2⟩ <;> simp [*]
    refine ⟨?_, ?_, ?_⟩
    · rw [run_yt_dlp_download_result, if_pos hrc, run_yt_dlp_nonzero_exit]
      simp only [hcond, Bool.false_eq_true, if_false]
    · rw [truncTail]
      split
      · rfl
      · rename_i hle
        rw [Nat.sub_eq_zero_of_le (by omega), List.drop_zero]
    · rw [truncTail]
      split
      · rename_i hgt
        rw [List.length_drop]
        omega
      · rename_i hle
        omega

/-- Witness for `yt_dlp_nonzero_exit_fallback_or_truncated_error` at concrete
inputs: a Pinterest URL with the no-formats diagnostic falls back to the
gallery files, and a YouTube URL with another diagnostic raises it intact. -/
theorem yt_dlp_nonzero_exit_fallback_witness :
    run_yt_dlp_download_result 1 ("https://pinterest.com/pin/77").data []
        ("ERROR: [generic] No video formats found!").data
        (.ok [("/data/gdl_ab/1.jpg").data]) [] =
      .ok [("/data/gdl_ab/1.jpg").data] ∧
    run_yt_dlp_download_result 1 ("https://youtube.com/watch?v=1").data []
        ("ERROR: fragment not found").data (.ok []) [] =
      .error ("ERROR: fragment not found").data := by
  constructor
  · exact (yt_dlp_nonzero_exit_fallback_or_truncated_error 1 _ _ _ _ _
      (by decide)).1 (by decide) (Or.inr (by decide))
  · have h := (yt_dlp_nonzero_exit_fallback_or_truncated_error 1
      ("https://youtube.com/watch?v=1").data []
      ("ERROR: fragment not found").data (.ok []) [] (by decide)).2
      (Or.inl (by decide))
    rw [h.1, h.2.1]
    rfl

/-! Delivery dispatcher: media-group batching (bot.py lines 643-666). -/

/-- Structural engine for `batchesOf`: the fuel only bounds the recursion
depth (one batch consumes at least one element, so any fuel at least the
list's length is enough) and keeps the definition kernel-computable. -/
def batchesOfFuel {α : Type} : Nat → List α → List (List α)
  | _, [] => []
  | 0, _ :: _ => []
  | Nat.succ f, x :: xs =>
    ((x :: xs).take 10) :: batchesOfFuel f ((x :: xs).drop 10)

theorem batchesOfFuel_congr {α : Type} :
    ∀ (f1 f2 : Nat) (l : List α), l.length ≤ f1 → l.length ≤ f2 →
      batchesOfFuel f1 l = batchesOfFuel f2 l := by
  intro f1
  induction f1 with
  | zero =>
    intro f2 l h1 _
    have : l = [] := List.eq_nil_of_length_eq_zero (by omega)
    subst this
    cases f2 <;> rfl
  | succ f ih =>
    intro f2 l h1 h2
    cases l with
    | nil => cases f2 <;> rfl
    | cons x xs =>
      cases f2 with
      | zero => simp at h2
      | succ f2' =>
        show ((x :: xs).take 10) :: batchesOfFuel f ((x :: xs).drop 10) =
          ((x :: xs).take 10) :: batchesOfFuel f2' ((x :: xs).drop 10)
        rw [ih f2' ((x :: xs).drop 10)
          (by simp only [List.length_drop, List.length_cons] at *; omega)
          (by simp only [List.length_drop, List.length_cons] at *; omega)]

/-- Batches produced by `for idx in range(0, len(xs), 10): batch = xs[idx :
idx + 10]` (bot.py lines 646-647 and 659-660). -/
def batchesOf {α : Type} (l : List α) : List (List α) :=
  batchesOfFuel l.length l

theorem batchesOf_nil {α : Type} : batchesOf ([] : List α) = [] := rfl

theorem batchesOf_cons {α : Type} (x : α) (xs : List α) :
    batchesOf (x :: xs) =
      ((x :: xs).take 10) :: batchesOf ((x :: xs).drop 10) := by
  show ((x :: xs).take 10) :: batchesOfFuel xs.length ((x :: xs).drop 10) =
    ((x :: xs).take 10) :: batchesOf ((x :: xs).drop 10)
  rw [batchesOfFuel_congr xs.length ((x :: xs).drop 10).length _
    (by simp only [List.length_drop, List.length_cons]; omega)
    (Nat.le_refl _)]
  rfl

/-- One batch's items paired with their captions, mirroring bot.py
lines 649-651: `cap = caption if (idx == 0 and j == 0 and caption) else
None` — `giveCap` stands for `idx == 0`, which holds exactly for the first
batch since `idx` steps by 10, and the head of the batch is its `j == 0`
item. -/
def batchItems {α : Type} (giveCap : Bool) (caption : List Char) :
    List α → List (α × Option (List Char))
  | [] => []
  | p :: ps =>
    (p, if giveCap ∧ caption ≠ [] then some caption else Option.none) ::
      ps.map (fun q => (q, Option.none))

/-- Batch sequence with captions attached, shared body of
`send_media_group_photos` and `send_media_group_videos` (bot.py
lines 643-666, identical loops). -/
def mediaGroupsGo {α : Type} (isFirst : Bool) (caption : List Char) :
    List α → List (List (α × Option (List Char)))
  | [] => []
  | x :: xs =>
    batchItems isFirst caption ((x :: xs).take 10) ::
      mediaGroupsGo false caption ((x :: xs).drop 10)
termination_by l => l.length
decreasing_by
  simp only [List.length_drop, List.length_cons]
  omega

theorem mediaGroupsGo_nil {α : Type} (g : Bool) (cap : List Char) :
    mediaGroupsGo g cap ([] : List α) = [] := by
  rw [mediaGroupsGo]

theorem mediaGroupsGo_cons {α : Type} (g : Bool) (cap : List Char) (x : α)
    (xs : List α) :
    mediaGroupsGo g cap (x :: xs) =
      batchItems g cap ((x :: xs).take 10) ::
        mediaGroupsGo false cap ((x :: xs).drop 10) := by
  rw [mediaGroupsGo]

/-- Embedding of `send_media_group_photos` (bot.py lines 643-653): the
sequence of `media` lists handed to `bot.send_media_group`, one per batch,
each item paired with its optional caption. -/
def send_media_group_photos (photos : List (List Char))
    (caption : List Char) : List (List (List Char × Option (List Char))) :=
  mediaGroupsGo true caption photos

/-- Embedding of `send_media_group_videos` (bot.py lines 656-666), whose
loop is identical to the photo one. -/
def send_media_group_videos (videos : List (List Char))
    (caption : List Char) : List (List (List Char × Option (List Char))) :=
  mediaGroupsGo true caption videos

theorem batchItems_map_fst {α : Type} (g : Bool) (cap : List Char)
    (b : List α) : (batchItems g cap b).map Prod.fst = b := by
  cases b with
  | nil => rfl
  | cons p ps =>
    simp only [batchItems, List.map_cons, List.map_map]
    rw [show (Prod.fst ∘ fun q => ((q : α), (Option.none : Option (List Char))))
        = id from rfl, List.map_id]

theorem mediaGroupsGo_proj {α : Type} (g : Bool) (cap : List Char)
    (l : List α) :
    (mediaGroupsGo g cap l).map (fun b => b.map Prod.fst) = batchesOf l :=
  match l with
  | [] => by rw [mediaGroupsGo_nil, batchesOf_nil]; rfl
  | x :: xs => by
    rw [mediaGroupsGo_cons, batchesOf_cons, List.map_cons, batchItems_map_fst,
      mediaGroupsGo_proj false cap ((x :: xs).drop 10)]
termination_by l.length
decreasing_by
  simp only [List.length_drop, List.length_cons]
  omega

theorem batchesOf_flatten {α : Type} (l : List α) :
    (batchesOf l).flatten = l :=
  match l with
  | [] => by rw [batchesOf_nil]; rfl
  | x :: xs => by
    rw [batchesOf_cons, List.flatten_cons,
      batchesOf_flatten ((x :: xs).drop 10), List.take_append_drop]
termination_by l.length
decreasing_by
  simp only [List.length_drop, List.length_cons]
  omega

theorem batchesOf_batch_le {α : Type} (l : List α) (b : List α)
    (hb : b ∈ batchesOf l) : b.length ≤ 10 :=
  match l with
  | [] => by
    rw [batchesOf_nil] at hb
    cases hb
  | x :: xs => by
    rw [batchesOf_cons] at hb
    rcases List.mem_cons.mp hb with rfl | hb2
    · simp only [List.length_take]
      omega
    · exact batchesOf_batch_le ((x :: xs).drop 10) b hb2
termination_by l.length
decreasing_by
  simp only [List.length_drop, List.length_cons]
  omega

theorem batchItems_false_none {α : Type} (cap : List Char) (b : List α)
    (it : α × Option (List Char)) (hit : it ∈ batchItems false cap b) :
    it.2 = Option.none := by
  cases b with
  | nil => cases hit
  | cons p ps =>
    simp only [batchItems, Bool.false_eq_true, false_and, if_false] at hit
    rcases List.mem_cons.mp hit with rfl | hm
    · rfl
    · obtain ⟨q, _, rfl⟩ := List.mem_map.mp hm
      rfl

theorem mediaGroupsGo_false_none {α : Type} (cap : List Char) (l : List α)
    (b : List (α × Option (List Char))) (hb : b ∈ mediaGroupsGo false cap l)
    (it : α × Option (List Char)) (hit : it ∈ b) : it.2 = Option.none :=
  match l with
  | [] => by
    rw [mediaGroupsGo_nil] at hb
    cases hb
  | x :: xs => by
    rw [mediaGroupsGo_cons] at hb
    rcases List.mem_cons.mp hb with rfl | hb2
    · exact batchItems_false_none cap _ it hit
    · exact mediaGroupsGo_false_none cap ((x :: xs).drop 10) b hb2 it hit
termination_by l.length
decreasing_by
  simp only [List.length_drop, List.length_cons]
  omega

theorem mediaGroupsGo_caption {α : Type} (cap : List Char) (l : List α)
    (i j : Nat) (b : List (α × Option (List Char)))
    (it : α × Option (List Char))
    (hb : (mediaGroupsGo true cap l).get? i = some b)
    (hit : b.get? j = some it) :
    it.2 = if i = 0 ∧ j = 0 ∧ cap ≠ [] then some cap else Option.none := by
  cases l with
  | nil =>
    rw [mediaGroupsGo_nil] at hb
    cases hb
  | cons x xs =>
    rw [mediaGroupsGo_cons] at hb
    cases i with
    | zero =>
      rw [List.get?_cons_zero] at hb
      injection hb with hb
      subst hb
      rw [List.take_succ_cons, batchItems] at hit
      cases j with
      | zero =>
        rw [List.get?_cons_zero] at hit
        injection hit with hit
        subst hit
        by_cases hc : cap = [] <;> simp [hc]
      | succ j2 =>
        rw [List.get?_cons_succ] at hit
        have hmem := List.get?_mem hit
        obtain ⟨q, _, rfl⟩ := List.mem_map.mp hmem
        simp
    | succ i2 =>
      rw [List.get?_cons_succ] at hb
      have hbm : b ∈ mediaGroupsGo false cap ((x :: xs).drop 10) :=
        List.get?_mem hb
      have hz := mediaGroupsGo_false_none cap ((x :: xs).drop 10) b hbm it
        (List.get?_mem hit)
      simp [hz]

/-- Twelve one-character photo paths. -/
def exTwelve : List (List Char) :=
  [['a'], ['b'], ['c'], ['d'], ['e'], ['f'], ['g'], ['h'], ['i'], ['j'],
   ['k'], ['l']]

/-- Claim C9: every photo (resp. video) batch handed to the transport has at
most 10 items; concatenating the batches' media in order gives back exactly
the input list; the caption appears on an item exactly when it is the first
item of the first batch and the caption is non-empty; and twelve photos
produce a first batch of 10 and a second of 2. -/
theorem media_group_batching_spec :
    (∀ (ps : List (List Char)) (cap : List Char) b,
        b ∈ send_media_group_photos ps cap → b.length ≤ 10) ∧
    (∀ (ps : List (List Char)) (cap : List Char),
        ((send_media_group_photos ps cap).map
          (fun b => b.map Prod.fst)).flatten = ps) ∧
    (∀ (vs : List (List Char)) (cap : List Char) b,
        b ∈ send_media_group_videos vs cap → b.length ≤ 10) ∧
    (∀ (vs : List (List Char)) (cap : List Char),
        ((send_media_group_videos vs cap).map
          (fun b => b.map Prod.fst)).flatten = vs) ∧
    (∀ (ps : List (List Char)) (cap : List Char) (i j : Nat) b it,
        (send_media_group_photos ps cap).get? i = some b →
        b.get? j = some it →
        it.2 = if i = 0 ∧ j = 0 ∧ cap ≠ [] then some cap
          else Option.none) ∧
    (∀ (vs : List (List Char)) (cap : List Char) (i j : Nat) b it,
        (send_media_group_videos vs cap).get? i = some b →
        b.get? j = some it →
        it.2 = if i = 0 ∧ j = 0 ∧ cap ≠ [] then some cap
          else Option.none) ∧
    (send_media_group_photos exTwelve ['t']).map (fun b => b.length) =
      [10, 2] := by
  have hlen : ∀ (ps : List (List Char)) (cap : List Char) b,
      b ∈ mediaGroupsGo true cap ps → b.length ≤ 10 := by
    intro ps cap b hb
    have hproj : b.map Prod.fst ∈ batchesOf ps := by
      rw [← mediaGroupsGo_proj true cap ps]
      exact List.mem_map_of_mem _ hb
    have := batchesOf_batch_le ps (b.map Prod.fst) hproj
    rwa [List.length_map] at this
  have hjoin : ∀ (ps : List (List Char)) (cap : List Char),
      ((mediaGroupsGo true cap ps).map (fun b => b.map Prod.fst)).flatten
        = ps := by
    intro ps cap
    rw [mediaGroupsGo_proj, batchesOf_flatten]
  refine ⟨hlen, hjoin, hlen, hjoin,
    fun ps cap i j b it hb hit => mediaGroupsGo_caption cap ps i j b it hb hit,
    fun vs cap i j b it hb hit => mediaGroupsGo_caption cap vs i j b it hb hit,
    ?_⟩
  rw [send_media_group_photos, show exTwelve = ['a'] ::
      [['b'], ['c'], ['d'], ['e'], ['f'], ['g'], ['h'], ['i'], ['j'], ['k'],
       ['l']] from rfl, mediaGroupsGo_cons,
    show ((['a'] :: [['b'], ['c'], ['d'], ['e'], ['f'], ['g'], ['h'], ['i'],
      ['j'], ['k'], ['l']] : List (List Char)).drop 10) = ['k'] :: [['l']]
      from rfl, mediaGroupsGo_cons,
    show ((['k'] :: [['l']] : List (List Char)).drop 10) =
      ([] : List (List Char)) from rfl, mediaGroupsGo_nil]
  decide

/-- Witness for `media_group_batching_spec` at twelve concrete photos: the
first batch has at most 10 items and the caption sits on the very first
item. -/
theorem media_group_batching_spec_witness :
    (batchItems true ['t'] (exTwelve.take 10)).length ≤ 10 ∧
    some (['t'] : List Char) =
      if 0 = 0 ∧ 0 = 0 ∧ (['t'] : List Char) ≠ [] then some ['t']
      else Option.none := by
  have hb : (send_media_group_photos exTwelve ['t']).get? 0 =
      some (batchItems true ['t'] (exTwelve.take 10)) := by
    rw [send_media_group_photos, show exTwelve = ['a'] ::
      [['b'], ['c'], ['d'], ['e'], ['f'], ['g'], ['h'], ['i'], ['j'], ['k'],
       ['l']] from rfl, mediaGroupsGo_cons]
    rfl
  have hit : (batchItems true ['t'] (exTwelve.take 10)).get? 0 =
      some (['a'], some ['t']) := by decide
  constructor
  · exact media_group_batching_spec.1 exTwelve ['t'] _
      (List.get?_mem hb)
  · exact media_group_batching_spec.2.2.2.2.1 exTwelve ['t'] 0 0 _ _ hb hit

/-! Conversation locks, the job registry and the two handlers
(bot.py lines 388-398, 740-744, 869-878, 901-974 and 976-1050). -/

/-- Embedding of the `PendingJob` dataclass (bot.py lines 388-398). -/
structure PendingJob where
  token : List Char
  chat_id : Int
  user_id : Int
  url : List Char
  title : List Char
  description : List Char
  created_at : Int
  expires_at : Int
  status_message_id : Int
deriving DecidableEq

/-- Process-wide mutable state (bot.py lines 869-870): `chat_locks` is
abstracted to the set of chat ids whose `asyncio.Lock` is currently held —
i.e. a pipeline execution for that conversation is in flight, suspended at
an `await` inside its `async with lock` block — and `pending_jobs` is the
quality-menu token registry. -/
structure BotState where
  locked : List Int
  pending_jobs : List PendingJob
deriving DecidableEq

/-- Whether `get_lock(chat_id).locked()` is true (bot.py lines 873-878,
986, 937): the conversation's lock is currently held. -/
def lockHeld (st : BotState) (chat : Int) : Bool := st.locked.contains chat

/-- Embedding of `purge_expired_jobs` (bot.py lines 740-744): every entry
with `expires_at <= now` is removed. -/
def purge_expired_jobs (now : Int) (jobs : List PendingJob) :
    List PendingJob :=
  jobs.filter (fun j => decide (now < j.expires_at))

/-- Python `pending_jobs.get(token)` (bot.py line 911); dict keys are
unique, so the first match is the entry. -/
def findJob (tok : List Char) (jobs : List PendingJob) : Option PendingJob :=
  jobs.find? (fun j => decide (j.token = tok))

/-- Python `pending_jobs.pop(token, None)` (bot.py lines 924, 933). -/
def popJob (tok : List Char) (jobs : List PendingJob) : List PendingJob :=
  jobs.eraseP (fun j => decide (j.token = tok))

/-- First split of `sep` off `l`, if any. -/
def splitOnce (sep : Char) : List Char → Option (List Char × List Char)
  | [] => Option.none
  | c :: cs =>
    if c = sep then some ([], cs)
    else
      match splitOnce sep cs with
      | some (a, b) => some (c :: a, b)
      | Option.none => Option.none

/-- Python `s.split(sep, 2)` (bot.py line 905): at most two splits, the
remainder kept whole. -/
def pySplit2 (sep : Char) (l : List Char) : List (List Char) :=
  match splitOnce sep l with
  | Option.none => [l]
  | some (a, r) =>
    match splitOnce sep r with
    | Option.none => [a, r]
    | some (b, r2) => [a, b, r2]

/-- Maximal run of non-whitespace characters from the start (the `\S+` part
of `URL_RE`, bot.py line 54). -/
def nonspaceRun (t : List Char) : List Char :=
  t.takeWhile (fun c => !pyIsSpace c)

/-- Whether a non-whitespace character stands at position `n`. -/
def hasNonspaceAt (t : List Char) (n : Nat) : Bool :=
  match (t.drop n).head? with
  | some c => !pyIsSpace c
  | Option.none => false

/-- Match of `URL_RE = https?://\S+` (case-insensitive) anchored at the
start of `t`: the scheme must be present and at least one non-space
character must follow `//`; the matched text is the maximal non-space run. -/
def http_match_at (t : List Char) : Option (List Char) :=
  if pyLower (t.take 8) = ("https://").data ∧ hasNonspaceAt t 8 then
    some (nonspaceRun t)
  else if pyLower (t.take 7) = ("http://").data ∧ hasNonspaceAt t 7 then
    some (nonspaceRun t)
  else Option.none

/-- Embedding of `URL_RE.search` (bot.py lines 54, 979): the leftmost match
of `https?://\S+`, if any. -/
def url_re_search : List Char → Option (List Char)
  | [] => Option.none
  | c :: cs =>
    match http_match_at (c :: cs) with
    | some m => some m
    | Option.none => url_re_search cs

/-- An exception raised inside the guarded pipeline section, as classified
by the handlers: its `str(e)` text and whether it is an
`asyncio.TimeoutError` instance. -/
structure PipeErr where
  msg : List Char
  timeoutInstance : Bool

/-- Embedding of `is_timeout_error` (bot.py lines 733-737). -/
def is_timeout_error (e : PipeErr) : Bool :=
  containsSub ("timeout").data (pyLower e.msg) ||
  containsSub ("request timeout").data (pyLower e.msg) ||
  e.timeoutInstance

/-- Python truthiness of the optional `plan.info` (bot.py line 1010). -/
def truthyOptInfo : Option PyVal → Bool
  | Option.none => false
  | some v => v.truthy

/-- Externally visible effects of one handler run. -/
inductive Action where
  | reply (text : List Char)
  | editMsg (text : List Char)
  | answerCb (text : List Char)
  | toolProbe (url : List Char)
  | runPipeline (url : List Char) (quality : List Char)
deriving DecidableEq

/-- Outcome of one `handle_text` run. -/
inductive TextOutcome where
  | ignored
  | busy
  | menu (job : PendingJob)
  | completed
  | failed (timeout : Bool)
deriving DecidableEq

/-- Outcome of one `on_quality_choice` run. -/
inductive QCOutcome where
  | invalidData
  | stale
  | foreign
  | cancelled
  | busy
  | ran
  | ranFailed (timeout : Bool)
deriving DecidableEq

def progress_text : List Char := ("🔄 В процессе…").data

def busy_text : List Char :=
  ("⏳ Загрузка ещё идёт. Пожалуйста, подожди.").data

def stale_text : List Char :=
  ("⌛ Запрос устарел. Пришли ссылку заново.").data

def foreign_text : List Char :=
  ("ℹ️ Это меню не относится к текущему запросу.").data

def cancelled_text : List Char := ("🚫 Отменено.").data

def cancelled_edit_text : List Char :=
  ("🚫 Запрос отменён. Пришли ссылку заново.").data

def invalid_text : List Char :=
  ("⚠️ Некорректный выбор. Попробуй ещё раз.").data

def choose_quality_text : List Char := ("🎚 Выбери нужное качество:").data

def timeout_text : List Char :=
  ("⏱ Возможна задержка со стороны Telegram.\nЕсли файл уже появился — всё в порядке.\nЕсли нет, попробуй повторить запрос чуть позже.").data

def fail_text (e : List Char) : List Char :=
  ("❌ Не удалось выполнить запрос:\n").data ++ e

/-- Embedding of the `handle_text` handler (bot.py lines 976-1050) as one
atomic step.  Oracle parameters stand for the I/O performed inside the lock:
`tok` is the fresh token (`uuid4().hex[:12]`), `sid` the status message id,
`pc` the outcome of `precheck_plan` and `run` the outcome of
`process_download_and_send`.  The step leaves `locked` unchanged because the
lock, when taken, is taken and released within the step; `lockHeld st chat`
says another task currently sits inside its own `async with` block for this
conversation. -/
def handle_text_step (st : BotState) (chat : Int) (fromUser : Option Int)
    (text : List Char) (now ttl sid : Int) (tok : List Char)
    (pc : Except PipeErr DownloadPlan) (run : Except PipeErr Unit) :
    BotState × TextOutcome × List Action :=
  match url_re_search (pyStrip text) with
  | Option.none => (st, .ignored, [])
  | some url =>
    if lockHeld st chat then (st, .busy, [.reply busy_text])
    else
      let probeActs :=
        if (precheck_plan_route url).isProbe then [Action.toolProbe url]
        else []
      match pc with
      | .error e =>
        if is_timeout_error e then
          (st, .failed true,
           [.reply progress_text] ++ probeActs ++ [.editMsg timeout_text])
        else
          (st, .failed false,
           [.reply progress_text] ++ probeActs ++ [.editMsg (fail_text e.msg)])
      | .ok plan =>
        if plan.mode = ("video").data ∧ supports_quality_menu url ∧
            truthyOptInfo plan.info then
          let job : PendingJob :=
            { token := tok, chat_id := chat, user_id := fromUser.getD 0,
              url := url, title := plan.title,
              description := plan.description, created_at := now,
              expires_at := now + ttl, status_message_id := sid }
          ({ st with pending_jobs := st.pending_jobs ++ [job] }, .menu job,
           [.reply progress_text] ++ probeActs ++
             [.editMsg choose_quality_text])
        else
          match run with
          | .ok _ =>
            (st, .completed,
             [.reply progress_text] ++ probeActs ++
               [.runPipeline url ("best").data])
          | .error e =>
            if is_timeout_error e then
              (st, .failed true,
               [.reply progress_text] ++ probeActs ++
                 [.runPipeline url ("best").data, .editMsg timeout_text])
            else
              (st, .failed false,
               [.reply progress_text] ++ probeActs ++
                 [.runPipeline url ("best").data,
                  .editMsg (fail_text e.msg)])

/-- Embedding of the `on_quality_choice` handler (bot.py lines 901-974) as
one atomic step.  `run` is the oracle for `process_download_and_send`. -/
def on_quality_choice_step (st : BotState) (now : Int)
    (fromUser : Option Int) (cbData : List Char)
    (run : Except PipeErr Unit) : BotState × QCOutcome × List Action :=
  let jobs1 := purge_expired_jobs now st.pending_jobs
  let st1 : BotState := { st with pending_jobs := jobs1 }
  match pySplit2 '|' cbData with
  | [_, choice, tok] =>
    match findJob tok jobs1 with
    | Option.none => (st1, .stale, [.answerCb stale_text])
    | some job =>
      match fromUser with
      | Option.none => (st1, .foreign, [.answerCb foreign_text])
      | some uid =>
        if uid ≠ job.user_id then (st1, .foreign, [.answerCb foreign_text])
        else if choice = ("cancel").data then
          ({ st1 with pending_jobs := popJob tok jobs1 }, .cancelled,
           [.answerCb cancelled_text, .editMsg cancelled_edit_text])
        else
          let st2 : BotState := { st1 with pending_jobs := popJob tok jobs1 }
          if lockHeld st2 job.chat_id then
            (st2, .busy, [.answerCb progress_text, .answerCb busy_text])
          else
            match run with
            | .ok _ =>
              (st2, .ran,
               [.answerCb progress_text, .runPipeline job.url choice])
            | .error e =>
              if is_timeout_error e then
                (st2, .ranFailed true,
                 [.answerCb progress_text, .runPipeline job.url choice,
                  .editMsg timeout_text])
              else
                (st2, .ranFailed false,
                 [.answerCb progress_text, .runPipeline job.url choice,
                  .editMsg (fail_text e.msg)])
  | _ => (st1, .invalidData, [.answerCb invalid_text])

theorem findJob_popJob_self (tok : List Char) (jobs : List PendingJob)
    (hnd : (jobs.map PendingJob.token).Nodup) :
    findJob tok (popJob tok jobs) = Option.none := by
  induction jobs with
  | nil => rfl
  | cons j js ih =>
    have hnd2 : (js.map PendingJob.token).Nodup := by
      simp only [List.map_cons, List.nodup_cons] at hnd
      exact hnd.2
    have hjm : j.token ∉ js.map PendingJob.token := by
      simp only [List.map_cons, List.nodup_cons] at hnd
      exact hnd.1
    by_cases hj : j.token = tok
    · rw [popJob, List.eraseP_cons_of_pos (by simp [hj])]
      rw [findJob, List.find?_eq_none]
      intro x hx
      simp only [decide_eq_true_eq]
      intro hxtok
      exact hjm (by
        rw [hj, ← hxtok]
        exact List.mem_map_of_mem PendingJob.token hx)
    · rw [popJob, List.eraseP_cons_of_neg (by simp [hj])]
      rw [findJob, List.find?_cons_of_neg _ (by simp [hj])]
      exact ih hnd2

theorem findJob_none_of_purge (tok : List Char) (now : Int)
    (jobs : List PendingJob) (h : findJob tok jobs = Option.none) :
    findJob tok (purge_expired_jobs now jobs) = Option.none := by
  rw [findJob, List.find?_eq_none] at h ⊢
  intro x hx
  exact h x (List.mem_of_mem_filter hx)

theorem findJob_purge_of_expired (now : Int) (jobs : List PendingJob)
    (tok : List Char) (job0 : PendingJob)
    (hnd : (jobs.map PendingJob.token).Nodup) (hmem : job0 ∈ jobs)
    (htok : job0.token = tok) (hexp : job0.expires_at ≤ now) :
    findJob tok (purge_expired_jobs now jobs) = Option.none := by
  rw [findJob, List.find?_eq_none]
  intro x hx
  simp only [decide_eq_true_eq]
  intro hxtok
  have hx2 : x ∈ jobs := List.mem_of_mem_filter hx
  have hxe : now < x.expires_at := by
    have := List.of_mem_filter hx
    simpa using this
  have hxj : x = job0 :=
    List.inj_on_of_nodup_map hnd hx2 hmem (by rw [hxtok, htok])
  rw [hxj] at hxe
  omega

/-- Shared fact: a valid, owner-matching, non-cancel resolution arriving
while the conversation's lock is held answers busy, having already removed
the token (bot.py lines 933-939: the `pop` at line 933 precedes the
`lock.locked()` check at line 937). -/
theorem on_quality_busy_eq (st : BotState) (now : Int)
    (fromUser : Option Int) (cbData : List Char) (run : Except PipeErr Unit)
    (p0 choice tok : List Char) (job : PendingJob)
    (hsplit : pySplit2 '|' cbData = [p0, choice, tok])
    (hfind : findJob tok (purge_expired_jobs now st.pending_jobs) = some job)
    (hfu : fromUser = some job.user_id)
    (hch : choice ≠ ("cancel").data)
    (hlock : lockHeld st job.chat_id = true) :
    on_quality_choice_step st now fromUser cbData run =
      ({ st with pending_jobs :=
           popJob tok (purge_expired_jobs now st.pending_jobs) },
       .busy, [.answerCb progress_text, .answerCb busy_text]) := by
  subst hfu
  have hlock2 : lockHeld st job.chat_id := hlock
  simp only [on_quality_choice_step, hsplit, hfind, lockHeld] at hlock2 ⊢
  rw [if_neg (by simp), if_neg hch, if_pos hlock2]

/-- Claim C2: a request for a conversation whose lock is held is rejected
immediately with the busy reply and nothing else — the state (registry and
locks) is unchanged for `handle_text`, no pipeline outcome other than
busy/ignored is possible while the lock is held, and in `on_quality_choice`
the busy rejection leaves the registry a sublist of the old one (no new
token) and performs no pipeline invocation. -/
theorem busy_conversation_rejected_immediately :
    (∀ (st : BotState) (chat : Int) (fromUser : Option Int)
        (text : List Char) (now ttl sid : Int) (tok : List Char)
        (pc : Except PipeErr DownloadPlan) (run : Except PipeErr Unit)
        (url : List Char),
        url_re_search (pyStrip text) = some url →
        lockHeld st chat = true →
        handle_text_step st chat fromUser text now ttl sid tok pc run =
          (st, .busy, [.reply busy_text])) ∧
    (∀ (st : BotState) (chat : Int) (fromUser : Option Int)
        (text : List Char) (now ttl sid : Int) (tok : List Char)
        (pc : Except PipeErr DownloadPlan) (run : Except PipeErr Unit),
        lockHeld st chat = true →
        (handle_text_step st chat fromUser text now ttl sid tok pc
            run).2.1 = TextOutcome.busy ∨
        (handle_text_step st chat fromUser text now ttl sid tok pc
            run).2.1 = TextOutcome.ignored) ∧
    (∀ (st : BotState) (now : Int) (fromUser : Option Int)
        (cbData : List Char) (run : Except PipeErr Unit)
        (p0 choice tok : List Char) (job : PendingJob),
        pySplit2 '|' cbData = [p0, choice, tok] →
        findJob tok (purge_expired_jobs now st.pending_jobs) = some job →
        fromUser = some job.user_id →
        choice ≠ ("cancel").data →
        lockHeld st job.chat_id = true →
        on_quality_choice_step st now fromUser cbData run =
          ({ st with pending_jobs :=
               popJob tok (purge_expired_jobs now st.pending_jobs) },
           .busy, [.answerCb progress_text, .answerCb busy_text]) ∧
        (popJob tok (purge_expired_jobs now st.pending_jobs)).Sublist
          st.pending_jobs ∧
        ∀ u q, Action.runPipeline u q ∉
          ([.answerCb progress_text, .answerCb busy_text] : List Action)) := by
  refine ⟨?_, ?_, ?_⟩
  · intro st chat fromUser text now ttl sid tok pc run url hurl hlock
    simp [handle_text_step, hurl, hlock]
  · intro st chat fromUser text now ttl sid tok pc run hlock
    rcases hurl : url_re_search (pyStrip text) with _ | url
    · right
      simp [handle_text_step, hurl]
    · left
      simp [handle_text_step, hurl, hlock]
  · intro st now fromUser cbData run p0 choice tok job hsplit hfind hfu hch
      hlock
    refine ⟨on_quality_busy_eq st now fromUser cbData run p0 choice tok job
        hsplit hfind hfu hch hlock, ?_, ?_⟩
    · exact (List.eraseP_sublist _).trans (List.filter_sublist _)
    · intro u q hmem
      simp at hmem

/-- Registry entry used by the concrete witnesses. -/
def exJob : PendingJob :=
  { token := ("tok1").data, chat_id := 5, user_id := 42, url := ("u").data,
    title := [], description := [], created_at := 0, expires_at := 100,
    status_message_id := 7 }

/-- State with the example job and no lock held. -/
def exStateFree : BotState := { locked := [], pending_jobs := [exJob] }

/-- State with the example job and the lock of chat 5 held. -/
def exStateLocked : BotState := { locked := [5], pending_jobs := [exJob] }

/-- Witness for `busy_conversation_rejected_immediately` at a locked
conversation: a fresh URL message gets only the busy reply with the state
unchanged, and a pending-token resolution gets the busy answer with the
token already destroyed. -/
theorem busy_conversation_rejected_immediately_witness :
    handle_text_step
      { locked := [5], pending_jobs := [] } 5 (some 42)
      ("https://youtube.com/watch?v=1").data 0 600 7 ("ab12").data
      (.ok { mode := ("video").data }) (.ok ()) =
      ({ locked := [5], pending_jobs := [] }, .busy,
       [.reply busy_text]) ∧
    (on_quality_choice_step exStateLocked 0 (some 42)
      ("q|best|tok1").data (.ok ())).2.1 = QCOutcome.busy := by
  constructor
  · exact busy_conversation_rejected_immediately.1
      { locked := [5], pending_jobs := [] } 5 (some 42)
      ("https://youtube.com/watch?v=1").data 0 600 7 ("ab12").data
      (.ok { mode := ("video").data }) (.ok ())
      ("https://youtube.com/watch?v=1").data (by decide) (by decide)
  · have h := (busy_conversation_rejected_immediately.2.2 exStateLocked 0
      (some 42) ("q|best|tok1").data (.ok ()) ("q").data ("best").data
      ("tok1").data exJob (by decide) (by decide) rfl (by decide)
      (by decide)).1
    rw [h]

/-- Claim C3: a quality-menu resolution with an unknown token, or whose
token was lazily purged because it expired, is answered as stale; a
resolution by a user other than the token's owner is answered as foreign;
in each case the registry changes only by the lazy purge of expired
entries, the lock set is untouched, and no pipeline outcome occurs. -/
theorem quality_resolution_rejections_without_side_effects :
    (∀ (st : BotState) (now : Int) (fromUser : Option Int)
        (cbData : List Char) (run : Except PipeErr Unit)
        (p0 choice tok : List Char),
        pySplit2 '|' cbData = [p0, choice, tok] →
        findJob tok (purge_expired_jobs now st.pending_jobs) =
          Option.none →
        on_quality_choice_step st now fromUser cbData run =
          ({ st with pending_jobs := purge_expired_jobs now st.pending_jobs },
           .stale, [.answerCb stale_text])) ∧
    (∀ (st : BotState) (now : Int) (fromUser : Option Int)
        (cbData : List Char) (run : Except PipeErr Unit)
        (p0 choice tok : List Char) (job : PendingJob),
        pySplit2 '|' cbData = [p0, choice, tok] →
        findJob tok (purge_expired_jobs now st.pending_jobs) = some job →
        (∀ u, fromUser = some u → u ≠ job.user_id) →
        on_quality_choice_step st now fromUser cbData run =
          ({ st with pending_jobs := purge_expired_jobs now st.pending_jobs },
           .foreign, [.answerCb foreign_text])) ∧
    (∀ (st : BotState) (now : Int) (fromUser : Option Int)
        (cbData : List Char) (run : Except PipeErr Unit)
        (p0 choice tok : List Char) (job0 : PendingJob),
        pySplit2 '|' cbData = [p0, choice, tok] →
        (st.pending_jobs.map PendingJob.token).Nodup →
        job0 ∈ st.pending_jobs → job0.token = tok →
        job0.expires_at ≤ now →
        on_quality_choice_step st now fromUser cbData run =
          ({ st with pending_jobs := purge_expired_jobs now st.pending_jobs },
           .stale, [.answerCb stale_text])) := by
  refine ⟨?_, ?_, ?_⟩
  · intro st now fromUser cbData run p0 choice tok hsplit hfind
    simp [on_quality_choice_step, hsplit, hfind]
  · intro st now fromUser cbData run p0 choice tok job hsplit hfind huser
    rcases fromUser with _ | uid
    · simp [on_quality_choice_step, hsplit, hfind]
    · have hne : uid ≠ job.user_id := huser uid rfl
      simp [on_quality_choice_step, hsplit, hfind, hne]
  · intro st now fromUser cbData run p0 choice tok job0 hsplit hnd hmem htok
      hexp
    have hfind := findJob_purge_of_expired now st.pending_jobs tok job0 hnd
      hmem htok hexp
    simp [on_quality_choice_step, hsplit, hfind]

/-- Witness for `quality_resolution_rejections_without_side_effects`: an
unknown token is stale, a foreign user is rejected on a live token, and an
expired token is stale even for its owner. -/
theorem quality_resolution_rejections_witness :
    on_quality_choice_step exStateFree 0 (some 42) ("q|best|zz").data
      (.ok ()) =
      ({ exStateFree with pending_jobs := [exJob] },
       .stale, [.answerCb stale_text]) ∧
    on_quality_choice_step exStateFree 0 (some 99) ("q|best|tok1").data
      (.ok ()) =
      ({ exStateFree with pending_jobs := [exJob] },
       .foreign, [.answerCb foreign_text]) ∧
    on_quality_choice_step exStateFree 100 (some 42) ("q|best|tok1").data
      (.ok ()) =
      ({ exStateFree with pending_jobs := [] },
       .stale, [.answerCb stale_text]) := by
  refine ⟨?_, ?_, ?_⟩
  · have h := quality_resolution_rejections_without_side_effects.1
      exStateFree 0 (some 42) ("q|best|zz").data (.ok ()) ("q").data
      ("best").data ("zz").data (by decide) (by decide)
    rw [h]
    decide
  · have h := quality_resolution_rejections_without_side_effects.2.1
      exStateFree 0 (some 99) ("q|best|tok1").data (.ok ()) ("q").data
      ("best").data ("tok1").data exJob (by decide) (by decide)
      (fun u hu => by cases hu; decide)
    rw [h]
    decide
  · have h := quality_resolution_rejections_without_side_effects.2.2
      exStateFree 100 (some 42) ("q|best|tok1").data (.ok ()) ("q").data
      ("best").data ("tok1").data exJob (by decide) (by decide)
      (List.mem_singleton.mpr rfl) (by decide) (by decide)
    rw [h]
    decide

/-- Claim C10 (implicit): a valid, unexpired, owner-matching, non-cancel
resolution removes the token from the registry before the busy-lock check,
so when the lock is held the request is answered busy while the pending job
is already destroyed — the token is no longer found, and resolving the very
same callback again yields the stale answer. -/
theorem resolved_token_destroyed_even_when_busy (st : BotState) (now : Int)
    (cbData : List Char) (run run2 : Except PipeErr Unit)
    (p0 choice tok : List Char) (job : PendingJob)
    (hsplit : pySplit2 '|' cbData = [p0, choice, tok])
    (hnd : (st.pending_jobs.map PendingJob.token).Nodup)
    (hfind : findJob tok (purge_expired_jobs now st.pending_jobs) = some job)
    (hch : choice ≠ ("cancel").data)
    (hlock : lockHeld st job.chat_id = true) :
    (on_quality_choice_step st now (some job.user_id) cbData run).2.1 =
      QCOutcome.busy ∧
    findJob tok
      ((on_quality_choice_step st now (some job.user_id) cbData
        run).1).pending_jobs = Option.none ∧
    (on_quality_choice_step
      ((on_quality_choice_step st now (some job.user_id) cbData run).1) now
      (some job.user_id) cbData run2).2.1 = QCOutcome.stale := by
  have hres := on_quality_busy_eq st now (some job.user_id) cbData run p0
    choice tok job hsplit hfind rfl hch hlock
  have hnd1 : ((purge_expired_jobs now st.pending_jobs).map
      PendingJob.token).Nodup :=
    List.Nodup.sublist (List.Sublist.map PendingJob.token
      (List.filter_sublist _)) hnd
  have hpop : findJob tok
      (popJob tok (purge_expired_jobs now st.pending_jobs)) = Option.none :=
    findJob_popJob_self tok _ hnd1
  refine ⟨by rw [hres], by rw [hres]; exact hpop, ?_⟩
  rw [hres]
  have hfind2 : findJob tok (purge_expired_jobs now
      (popJob tok (purge_expired_jobs now st.pending_jobs))) =
      Option.none :=
    findJob_none_of_purge tok now _ hpop
  simp [on_quality_choice_step, hsplit, hfind2]

/-- Witness for `resolved_token_destroyed_even_when_busy` at a concrete
locked conversation. -/
theorem resolved_token_destroyed_even_when_busy_witness :
    (on_quality_choice_step exStateLocked 0 (some 42) ("q|best|tok1").data
      (.ok ())).2.1 = QCOutcome.busy ∧
    (on_quality_choice_step
      ((on_quality_choice_step exStateLocked 0 (some 42)
        ("q|best|tok1").data (.ok ())).1) 0 (some 42)
      ("q|best|tok1").data (.ok ())).2.1 = QCOutcome.stale := by
  have h := resolved_token_destroyed_even_when_busy exStateLocked 0
    ("q|best|tok1").data (.ok ()) (.ok ()) ("q").data ("best").data
    ("tok1").data exJob (by decide) (by decide) (by decide) (by decide)
    (by decide)
  exact ⟨h.1, h.2.2⟩

/-! Pipeline send-and-cleanup phase of `process_download_and_send`
(bot.py lines 747-836): what happens to the downloaded files after the
download step, as a function of the transport's behaviour. -/

/-- Final path component, `Path(...).name`. -/
def path_name (p : List Char) : List Char :=
  (p.reverse.takeWhile (fun c => c != '/')).reverse

/-- The extension with its dot, `Path(...).suffix`: the part of the name
from its last dot, empty when the dot is absent, leading or trailing. -/
def path_suffix (p : List Char) : List Char :=
  let n := path_name p
  match n.reverse.findIdx? (fun c => c == '.') with
  | Option.none => []
  | some k =>
    let i := n.length - 1 - k
    if 0 < i ∧ i < n.length - 1 then n.drop i else []

/-- Parent directory, `Path(...).parent` (for the absolute multi-component
paths the job produces). -/
def path_parent (p : List Char) : List Char :=
  ((p.reverse.dropWhile (fun c => c != '/')).drop 1).reverse

/-- Embedding of `is_image_file` (bot.py lines 193-194). -/
def is_image_file (p : List Char) : Bool :=
  [(".jpg").data, (".jpeg").data, (".png").data, (".webp").data].contains
    (pyLower (path_suffix p))

/-- Embedding of `guess_send_method` (bot.py lines 197-205). -/
def guess_send_method (p : List Char) : List Char :=
  let ext := pyLower (path_suffix p)
  if [(".mp4").data, (".mkv").data, (".webm").data,
      (".mov").data].contains ext then ("video").data
  else if [(".jpg").data, (".jpeg").data, (".png").data,
      (".webp").data].contains ext then ("photo").data
  else if [(".mp3").data, (".m4a").data, (".aac").data, (".ogg").data,
      (".opus").data, (".wav").data].contains ext then ("audio").data
  else ("document").data

/-- Cleanup action for one downloaded file (bot.py lines 831-836): files
whose path contains `gdl_` have their parent job directory removed, all
others are removed themselves. -/
def cleanup_target (p : List Char) : List Char :=
  if containsSub ("gdl_").data p then path_parent p else p

/-- Number of transport send calls the dispatch section performs
(bot.py lines 789-810): one `send_media_group` per photo batch; for videos
one call per batch when there are several, a single `send_video_safe`
otherwise; one call per audio; one call per remaining document. -/
def pds_send_calls (images videos audios docs : List (List Char)) : Nat :=
  (batchesOf images).length +
  (if 1 < videos.length then (batchesOf videos).length
   else videos.length) +
  audios.length + docs.length

/-- Index of the first transport call that raises, if any: `sendOk i` tells
whether the `i`-th send call succeeds. -/
def firstFailingCall (total : Nat) (sendOk : Nat → Bool) : Option Nat :=
  (List.range total).find? (fun i => !sendOk i)

/-- How the send-and-cleanup phase ends. -/
inductive PdsExit where
  | success
  | oversizeError (p : List Char)
  | sendError (idx : Nat)
deriving DecidableEq

/-- Result of the phase: how it exited and which paths were removed from
disk by the cleanup loop. -/
structure PdsResult where
  exitKind : PdsExit
  removed : List (List Char)
deriving DecidableEq

/-- Embedding of `process_download_and_send` after the download step
(bot.py lines 773-836).  `downloaded` is the (existing, regular) files the
download produced, `sizeBytes` their on-disk sizes, `tgMaxUploadMb` the
`TG_MAX_UPLOAD_MB` limit and `sendOk` the transport oracle.  The structure
mirrors the source: the per-file size check (lines 776-781) raises before
any send; the files are partitioned (lines 783-787) and sent in order
(photos, videos, audios, documents; lines 789-810), where the first failing
transport call raises out of the function; only when everything succeeded
does control reach the cleanup loop (lines 830-836), which removes each
file — or, for paths containing `gdl_`, the parent job directory.  There is
no `try`/`finally` around the sends, so a raising exit performs no
removal. -/
def process_download_and_send (downloaded : List (List Char))
    (sizeBytes : List Char → Nat) (tgMaxUploadMb : Nat)
    (sendOk : Nat → Bool) : PdsResult :=
  match downloaded.find?
      (fun p => decide (tgMaxUploadMb * 1048576 < sizeBytes p)) with
  | some p => { exitKind := .oversizeError p, removed := [] }
  | Option.none =>
    let images := downloaded.filter is_image_file
    let others := downloaded.filter (fun p => !images.contains p)
    let videos := others.filter
      (fun p => decide (guess_send_method p = ("video").data))
    let audios := others.filter
      (fun p => decide (guess_send_method p = ("audio").data))
    let docs := others.filter
      (fun p => !videos.contains p && !audios.contains p)
    match firstFailingCall (pds_send_calls images videos audios docs)
        sendOk with
    | some i => { exitKind := .sendError i, removed := [] }
    | Option.none =>
      { exitKind := .success, removed := downloaded.map cleanup_target }

/-- Claim C1 is wrong about the code: the cleanup loop is not on every exit
path.  For a single small video file whose (only) transport send fails, the
pipeline exits with the send error and removes nothing — the file stays on
disk, and likewise a gallery job file leaves its whole `gdl_` directory
behind.  Only when every send succeeds does cleanup run (then a plain file
is removed and a `gdl_` file's parent directory is removed). -/
theorem process_download_and_send_cleanup_only_on_success :
    process_download_and_send [("/data/ab12.001.clip.mp4").data]
        (fun _ => 5 * 1048576) 1900 (fun _ => false) =
      { exitKind := .sendError 0, removed := [] } ∧
    ("/data/ab12.001.clip.mp4").data ∉
      (process_download_and_send [("/data/ab12.001.clip.mp4").data]
        (fun _ => 5 * 1048576) 1900 (fun _ => false)).removed ∧
    process_download_and_send [("/data/gdl_ab/1.jpg").data]
        (fun _ => 5 * 1048576) 1900 (fun _ => false) =
      { exitKind := .sendError 0, removed := [] } ∧
    process_download_and_send [("/data/ab12.001.clip.mp4").data]
        (fun _ => 5 * 1048576) 1900 (fun _ => true) =
      { exitKind := .success,
        removed := [("/data/ab12.001.clip.mp4").data] } ∧
    process_download_and_send [("/data/gdl_ab/1.jpg").data]
        (fun _ => 5 * 1048576) 1900 (fun _ => true) =
      { exitKind := .success, removed := [("/data/gdl_ab").data] } := by
  have h1 : process_download_and_send [("/data/ab12.001.clip.mp4").data]
      (fun _ => 5 * 1048576) 1900 (fun _ => false) =
      { exitKind := .sendError 0, removed := [] } := by decide
  refine ⟨h1, ?_, by decide, by decide, by decide⟩
  rw [h1]
  exact List.not_mem_nil _

end VeilnovaBot
